import Mathlib

/-!
Shallow embedding of `src/stock_sentiment.py` (reddit_stock_analyzer).

Modelling conventions:
* Python floats are modelled as exact rationals `ℚ`, extended with a `nan`
  value (`PyFloat`) where pandas can produce NaN.  This preserves the
  branch/comparison structure of the code (`NaN > c` and `NaN < c` are both
  false in IEEE semantics, as in Python) but not binary rounding.
* Effectful collaborators (the praw reddit search, the yfinance history
  call) are oracles passed as parameters; they are indexed by a call
  counter `ℕ` so that "the code consults the collaborator exactly once,
  with no retry" is expressible.  A call either returns data or raises,
  modelled by `Except PyExn`.
* Exceptions are values of `PyExn`; a raised exception is `Except.error`.
* The nltk VADER `SentimentIntensityAnalyzer` is an external library.  Its
  `polarity_scores(text)['compound']` is modelled from nltk's `vader.py`:
  `score_valence` returns compound `0.0` when the token list produced no
  sentiment entries, and otherwise `normalize(sum, alpha=15)` whose value
  `x / sqrt(x*x + alpha)` is irrational, so the pre-clamp number is an
  abstract parameter `inner`, while the final clamp of `normalize` to
  `[-1, 1]` (explicit in vader.py) and the empty-case branch are concrete.
  The per-token valence lookup in the lexicon is an abstract parameter
  `valence`; tokenization is whitespace splitting (vader.py starts from
  `text.split()`), which is all the claims need: whitespace-only text has
  no tokens.
-/

namespace StockSentiment

/-- Python exceptions that can cross the boundaries in this program:
`KeyError` (missing DataFrame column), upstream API failures raised by the
praw / yfinance clients, and the `InvalidArgument` the specification
postulates (the code itself never raises it). -/
inductive PyExn where
  | keyError (key : String)
  | upstreamUnavailable (msg : String)
  | invalidArgument (msg : String)
  deriving DecidableEq

/-- Python float as used by this program: an exact rational or NaN
(pandas `Series.mean()` on an empty series yields NaN). -/
inductive PyFloat where
  | nan
  | val (q : ℚ)
  deriving DecidableEq

/-- IEEE comparison `x > c`: false when x is NaN. -/
def PyFloat.gtF : PyFloat → ℚ → Bool
  | .nan, _ => false
  | .val q, c => decide (q > c)

/-- IEEE comparison `x < c`: false when x is NaN. -/
def PyFloat.ltF : PyFloat → ℚ → Bool
  | .nan, _ => false
  | .val q, c => decide (q < c)

/-- A raw submission as returned by the praw search
(`post.title`, `post.selftext`, `post.score`, `post.created_utc`). -/
structure Submission where
  title : String
  selftext : String
  score : Int
  created_utc : Int
  deriving DecidableEq

/-- A row of the DataFrame built by `get_reddit_posts`:
`{'title': ..., 'text': ..., 'score': ..., 'created_utc': ...}`. -/
structure Post where
  title : String
  text : String
  score : Int
  created_utc : Int
  deriving DecidableEq

/-- One OHLCV row of the yfinance history DataFrame. -/
structure Candle where
  date : Int
  openPrice : ℚ
  high : ℚ
  low : ℚ
  close : ℚ
  volume : Int
  deriving DecidableEq

/-- Embedding of `get_reddit_posts(self, stock_symbol, limit=100)`: builds the query
`f'{stock_symbol} stock'`, hands it together with `limit` to the external
praw search (the oracle), and converts each returned submission into a row.
There is no validation of `stock_symbol` or `limit`; any exception of the
search propagates. -/
def get_reddit_posts (search : String → Int → Except PyExn (List Submission))
    (stock_symbol : String) (limit : Int := 100) : Except PyExn (List Post) :=
  match search (stock_symbol ++ " stock") limit with
  | .error e => .error e
  | .ok subs => .ok (subs.map fun p =>
      { title := p.title, text := p.selftext, score := p.score,
        created_utc := p.created_utc })

/-- Whitespace word-splitting, accumulator style: `wordsAux p cs acc`
splits `cs` at characters satisfying `p`, dropping empty pieces;
`acc` holds the (reversed) current word. -/
def wordsAux (p : Char → Bool) : List Char → List Char → List (List Char)
  | [], acc => if acc = [] then [] else [acc.reverse]
  | c :: cs, acc =>
    if p c then
      if acc = [] then wordsAux p cs []
      else acc.reverse :: wordsAux p cs []
    else wordsAux p cs (c :: acc)

/-- Tokenization of the input text: split on whitespace (nltk's vader
builds its token list starting from `text.split()`); whitespace-only text
yields no tokens. -/
def vaderTokens (text : String) : List String :=
  (wordsAux Char.isWhitespace text.toList []).map fun w => String.mk w

/-- nltk `vader.py normalize(score, alpha=15)`: the value
`score / sqrt(score*score + alpha)` (abstracted as `inner score`) is
clamped to `[-1, 1]` by the explicit `if norm_score < -1.0 ... elif
norm_score > 1.0 ...` in vader.py. -/
def vaderNormalize (inner : ℚ → ℚ) (score : ℚ) : ℚ :=
  let n := inner score
  if n < -1 then -1 else if n > 1 then 1 else n

/-- nltk `vader.py score_valence`: with no token sentiments the compound
score is `0.0`; otherwise the summed valences are normalized. -/
def vaderCompound (inner : ℚ → ℚ) (valences : List ℚ) : ℚ :=
  if valences = [] then 0 else vaderNormalize inner valences.sum

/-- Embedding of `analyze_sentiment(self, text)`: returns
`self.sia.polarity_scores(text)['compound']`, i.e. the VADER compound
score of the text under the lexicon `valence` and abstract pre-clamp
normalization `inner`. -/
def analyze_sentiment (inner : ℚ → ℚ) (valence : String → ℚ)
    (text : String) : ℚ :=
  vaderCompound inner ((vaderTokens text).map valence)

/-- pandas `Series.mean()`: NaN on an empty series, otherwise the sum of
the entries divided by their number. -/
def seriesMean (l : List ℚ) : PyFloat :=
  if l = [] then .nan else .val (l.sum / l.length)

/-- The aggregation step of `predict_trend`:
`posts_df['sentiment'] = posts_df['text'].apply(self.analyze_sentiment)`
followed by `posts_df['sentiment'].mean()` — each row's `text` column
(the body) is scored and the scores are averaged. -/
def aggregate (inner : ℚ → ℚ) (valence : String → ℚ)
    (posts : List Post) : PyFloat :=
  seriesMean (posts.map fun p => analyze_sentiment inner valence p.text)

/-- Embedding of `get_stock_data(self, stock_symbol, days=30)`: computes the trailing
window `[now - days, now]` and queries yfinance.  The wall clock and the
market-data API are folded into the oracle `hist`, consulted at
`(stock_symbol, days)`. -/
def get_stock_data (hist : String → Int → Except PyExn (List Candle))
    (stock_symbol : String) (days : Int := 30) : Except PyExn (List Candle) :=
  hist stock_symbol days

/-- The three literal strings `predict_trend` can return. -/
def bullishLabel : String := "Bullish (Detected - Positive sentiment)"

def bearishLabel : String := "Bearish (Detected - Negative sentiment)"

def neutralLabel : String := "Neutral (Detected - Mixed sentiment)"

/-- The `if avg_sentiment > 0.2 / elif avg_sentiment < -0.2 / else` ladder
of `predict_trend` (lines 105-110), as a function of the mean.  The float
literals `0.2` and `-0.2` are modelled as the exact rationals `1/5` and
`-(1/5)`; a NaN mean fails both strict comparisons and falls to the else
branch. -/
def classify (avg_sentiment : PyFloat) : String :=
  if avg_sentiment.gtF (1/5) then bullishLabel
  else if avg_sentiment.ltF (-(1/5)) then bearishLabel
  else neutralLabel

/-- Embedding of `predict_trend(self, stock_symbol)`:
1. `posts_df = self.get_reddit_posts(stock_symbol)` (default limit 100) —
   this is the analyzer's first search call, `search 0`;
2. `posts_df['text']` raises `KeyError('text')` when the DataFrame was
   built from an empty list (such a frame has no columns); otherwise the
   `text` column is scored and averaged (`aggregate`);
3. `stock_data = self.get_stock_data(stock_symbol)` — first history call,
   `hist 0`; the result is bound but never used;
4. the threshold ladder on `avg_sentiment` returns the label. -/
def predict_trend
    (search : ℕ → String → Int → Except PyExn (List Submission))
    (hist : ℕ → String → Int → Except PyExn (List Candle))
    (inner : ℚ → ℚ) (valence : String → ℚ)
    (stock_symbol : String) : Except PyExn String :=
  match get_reddit_posts (search 0) stock_symbol with
  | .error e => .error e
  | .ok posts =>
    if posts = [] then .error (.keyError "text")
    else
      let avg_sentiment := aggregate inner valence posts
      match get_stock_data (hist 0) stock_symbol with
      | .error e => .error e
      | .ok _stock_data => .ok (classify avg_sentiment)

/-- Rendering of a signed count of hundredths as a fixed two-decimal
string (the digit part of `f"{q:.2f}"`). -/
def fmt2i (c : Int) : String :=
  let sign := if c < 0 then "-" else ""
  let a := c.natAbs
  let r := a % 100
  sign ++ toString (a / 100) ++ "." ++
    (if r < 10 then "0" ++ toString r else toString r)

/-- Python `f"{q:.2f}"`, modelled as rounding the exact rational to two
decimal places and rendering with a fixed two-digit fraction. -/
def fmt2 (q : ℚ) : String :=
  fmt2i (round (q * 100))

/-- Python `str(e)` for the exceptions of this pipeline: `str(KeyError(k))`
renders as `'k'`; for the API-client exceptions the message is the string
they carry. -/
def errMsg : PyExn → String
  | .keyError k => "'" ++ k ++ "'"
  | .upstreamUnavailable m => m
  | .invalidArgument m => m

/-- Outcome of one run of `main()` after the symbol has been read: the
printed lines and the process exit code. -/
structure RunResult where
  output : List String
  exitCode : ℕ
  deriving DecidableEq

/-- The two lines printed after a successful prediction
(`print(f"\nAnalysis for {stock_symbol}:")` starts with a newline,
modelled as a preceding empty line). -/
def predictionLines (stock_symbol prediction : String) : List String :=
  ["", "Analysis for " ++ stock_symbol ++ ":", prediction]

/-- The sample loop of `main`: for each fetched post it prints the title
and `f"Sentiment: {analyzer.analyze_sentiment(post['text']):.2f}"` — the
sentiment printed is computed from the post's `text` (body) column. -/
def sampleLines (inner : ℚ → ℚ) (valence : String → ℚ)
    (posts : List Post) : List String :=
  posts.flatMap fun post =>
    ["", "Title: " ++ post.title,
     "Sentiment: " ++ fmt2 (analyze_sentiment inner valence post.text)]

/-- Embedding of `main()` from the point the symbol has been read (the construction of
the analyzer and the `input()` call precede the `try` block): uppercases
the input, runs `predict_trend` (the analyzer's search call 0 and history
call 0), prints the analysis block, re-fetches up to 5 posts (search call
1) and prints the sample; any exception raised inside the `try` is caught
by `except Exception as e: print(f"Error: {str(e)}")` and the process
exits normally (exit code 0) in every case. -/
def main_run
    (search : ℕ → String → Int → Except PyExn (List Submission))
    (hist : ℕ → String → Int → Except PyExn (List Candle))
    (inner : ℚ → ℚ) (valence : String → ℚ)
    (rawInput : String) : RunResult :=
  let stock_symbol := rawInput.toUpper
  match predict_trend search hist inner valence stock_symbol with
  | .error e => { output := ["Error: " ++ errMsg e], exitCode := 0 }
  | .ok prediction =>
    match get_reddit_posts (search 1) stock_symbol 5 with
    | .error e =>
      { output := predictionLines stock_symbol prediction ++
          ["Error: " ++ errMsg e], exitCode := 0 }
    | .ok posts =>
      { output := predictionLines stock_symbol prediction ++
          ["", "Recent Reddit posts about this stock:"] ++
          sampleLines inner valence posts, exitCode := 0 }

/-! Helper lemmas (shared; not claim theorems). -/

/-- The three labels are pairwise distinct string literals. -/
lemma bullish_ne_bearish : bullishLabel ≠ bearishLabel := by decide

lemma bullish_ne_neutral : bullishLabel ≠ neutralLabel := by decide

lemma bearish_ne_neutral : bearishLabel ≠ neutralLabel := by decide

/-- Unfolding of `classify` on a non-NaN mean. -/
lemma classify_val (q : ℚ) :
    classify (.val q) =
      if 1/5 < q then bullishLabel
      else if q < -(1/5) then bearishLabel else neutralLabel := by
  simp only [classify, PyFloat.gtF, PyFloat.ltF, gt_iff_lt, decide_eq_true_eq]

lemma classify_val_bullish {q : ℚ} (h : 1/5 < q) :
    classify (.val q) = bullishLabel := by
  rw [classify_val, if_pos h]

lemma classify_val_bearish {q : ℚ} (h1 : ¬ 1/5 < q) (h2 : q < -(1/5)) :
    classify (.val q) = bearishLabel := by
  rw [classify_val, if_neg h1, if_pos h2]

lemma classify_val_neutral {q : ℚ} (h1 : ¬ 1/5 < q) (h2 : ¬ q < -(1/5)) :
    classify (.val q) = neutralLabel := by
  rw [classify_val, if_neg h1, if_neg h2]

/-! Claim theorems. -/

/-- C1: for every mean sentiment value, the classification ladder of
`predict_trend` returns Bullish iff the mean exceeds 0.2, Bearish iff it
is below -0.2, and Neutral exactly on the closed band [-0.2, 0.2]; in
particular the boundary values 0.2 and -0.2 yield Neutral because both
comparisons are strict. -/
theorem classify_threshold_policy (q : ℚ) :
    (classify (.val q) = bullishLabel ↔ 1/5 < q) ∧
    (classify (.val q) = bearishLabel ↔ q < -(1/5)) ∧
    (classify (.val q) = neutralLabel ↔ -(1/5) ≤ q ∧ q ≤ 1/5) ∧
    classify (.val (1/5)) = neutralLabel ∧
    classify (.val (-(1/5))) = neutralLabel := by
  have key : ∀ r : ℚ, (classify (.val r) = bullishLabel ↔ 1/5 < r) ∧
      (classify (.val r) = bearishLabel ↔ r < -(1/5)) ∧
      (classify (.val r) = neutralLabel ↔ -(1/5) ≤ r ∧ r ≤ 1/5) := by
    intro r
    by_cases h1 : 1/5 < r
    · have h2 : ¬ r < -(1/5) := by linarith
      rw [classify_val_bullish h1]
      refine ⟨iff_of_true rfl h1, ⟨fun hc => absurd hc bullish_ne_bearish, fun hr => absurd hr h2⟩,
        ⟨fun hc => absurd hc bullish_ne_neutral, fun hr => absurd h1 (not_lt.2 hr.2)⟩⟩
    · by_cases h2 : r < -(1/5)
      · rw [classify_val_bearish h1 h2]
        refine ⟨⟨fun hc => absurd hc.symm bullish_ne_bearish, fun hr => absurd hr h1⟩,
          iff_of_true rfl h2,
          ⟨fun hc => absurd hc bearish_ne_neutral, fun hr => absurd h2 (not_lt.2 hr.1)⟩⟩
      · rw [classify_val_neutral h1 h2]
        exact ⟨⟨fun hc => absurd hc.symm bullish_ne_neutral, fun hr => absurd hr h1⟩,
          ⟨fun hc => absurd hc.symm bearish_ne_neutral, fun hr => absurd hr h2⟩,
          iff_of_true rfl ⟨not_lt.1 h2, not_lt.1 h1⟩⟩
  refine ⟨(key q).1, (key q).2.1, (key q).2.2, ?_, ?_⟩
  · exact (key (1/5)).2.2.mpr ⟨by norm_num, le_refl _⟩
  · exact (key (-(1/5))).2.2.mpr ⟨le_refl _, by norm_num⟩

/-- Splitting an all-whitespace character list produces no words. -/
lemma wordsAux_eq_nil {cs : List Char} (h : ∀ c ∈ cs, c.isWhitespace = true) :
    wordsAux Char.isWhitespace cs [] = [] := by
  induction cs with
  | nil => simp [wordsAux]
  | cons c cs ih =>
    have hc : c.isWhitespace = true := h c (List.mem_cons_self c cs)
    simp [wordsAux, hc, ih (fun x hx => h x (List.mem_cons_of_mem c hx))]

/-- Whitespace-only (in particular empty) text has no tokens. -/
lemma vaderTokens_eq_nil {text : String}
    (h : text.toList.all Char.isWhitespace = true) : vaderTokens text = [] := by
  have h' : ∀ c ∈ text.data, c.isWhitespace = true := by
    simpa [String.toList, List.all_eq_true] using h
  simp [vaderTokens, wordsAux_eq_nil h']

/-- The clamp in vader's `normalize` keeps every result in [-1, 1]. -/
lemma vaderNormalize_bounds (inner : ℚ → ℚ) (s : ℚ) :
    -1 ≤ vaderNormalize inner s ∧ vaderNormalize inner s ≤ 1 := by
  dsimp only [vaderNormalize]
  split_ifs with h1 h2
  · norm_num
  · norm_num
  · exact ⟨not_lt.1 h1, not_lt.1 h2⟩

/-- The compound score is always in [-1, 1]. -/
lemma vaderCompound_bounds (inner : ℚ → ℚ) (valences : List ℚ) :
    -1 ≤ vaderCompound inner valences ∧ vaderCompound inner valences ≤ 1 := by
  unfold vaderCompound
  split_ifs
  · norm_num
  · exact vaderNormalize_bounds inner valences.sum

/-- C5: for every input text (and every lexicon and normalization), the
sentiment score lies in the closed interval [-1, 1], and empty or
whitespace-only text scores exactly 0 rather than raising. -/
theorem analyze_sentiment_range_and_blank (inner : ℚ → ℚ)
    (valence : String → ℚ) (text : String) :
    -1 ≤ analyze_sentiment inner valence text ∧
    analyze_sentiment inner valence text ≤ 1 ∧
    (text.toList.all Char.isWhitespace = true →
      analyze_sentiment inner valence text = 0) := by
  refine ⟨(vaderCompound_bounds inner _).1, (vaderCompound_bounds inner _).2, ?_⟩
  intro h
  unfold analyze_sentiment
  rw [vaderTokens_eq_nil h]
  simp [vaderCompound]

/-- Witness for C5 at the whitespace-only text `" \t "`. -/
theorem analyze_sentiment_range_and_blank_witness :
    -1 ≤ analyze_sentiment id (fun _ => 0) " \t " ∧
    analyze_sentiment id (fun _ => 0) " \t " ≤ 1 ∧
    analyze_sentiment id (fun _ => 0) " \t " = 0 := by
  have h := analyze_sentiment_range_and_blank id (fun _ => 0) " \t "
  exact ⟨h.1, h.2.1, h.2.2 (by decide)⟩

/-- C6: for every non-empty sequence of posts, the aggregate mean equals
the arithmetic mean (sum of the per-post scores divided by the number of
posts), and it is invariant under any permutation of the posts. -/
theorem aggregate_is_arithmetic_mean (inner : ℚ → ℚ) (valence : String → ℚ)
    (posts posts' : List Post) (h : posts ≠ []) (hp : posts.Perm posts') :
    aggregate inner valence posts =
      .val ((posts.map fun p => analyze_sentiment inner valence p.text).sum
        / posts.length) ∧
    aggregate inner valence posts = aggregate inner valence posts' := by
  have hmap : ∀ l : List Post, l ≠ [] → aggregate inner valence l =
      .val ((l.map fun p => analyze_sentiment inner valence p.text).sum
        / l.length) := by
    intro l hl
    unfold aggregate seriesMean
    rw [if_neg (by simpa [List.map_eq_nil_iff] using hl), List.length_map]
  refine ⟨hmap posts h, ?_⟩
  have h' : posts' ≠ [] := by
    intro hnil
    exact h (List.Perm.eq_nil (hnil ▸ hp))
  rw [hmap posts h, hmap posts' h']
  have hperm : (posts.map fun p => analyze_sentiment inner valence p.text).Perm
      (posts'.map fun p => analyze_sentiment inner valence p.text) := hp.map _
  rw [hperm.sum_eq, hp.length_eq]

/-- Witness for C6 on a concrete two-post list and its swap. -/
theorem aggregate_is_arithmetic_mean_witness :
    aggregate id (fun _ => 0) [⟨"t1", "a", 1, 0⟩, ⟨"t2", "b", 2, 0⟩] =
      .val ((([⟨"t1", "a", 1, 0⟩, ⟨"t2", "b", 2, 0⟩] : List Post).map fun p =>
        analyze_sentiment id (fun _ => 0) p.text).sum /
        ([⟨"t1", "a", 1, 0⟩, ⟨"t2", "b", 2, 0⟩] : List Post).length) ∧
    aggregate id (fun _ => 0) [⟨"t1", "a", 1, 0⟩, ⟨"t2", "b", 2, 0⟩] =
      aggregate id (fun _ => 0) [⟨"t2", "b", 2, 0⟩, ⟨"t1", "a", 1, 0⟩] :=
  aggregate_is_arithmetic_mean id (fun _ => 0) _ _ (by decide) (by decide)

/-- Characterization of the successful runs of `predict_trend`: it returns
a label exactly when the search succeeded with a non-empty post list and
the history fetch succeeded, and the label is `classify` of the aggregate. -/
lemma predict_trend_ok_iff
    (s : ℕ → String → Int → Except PyExn (List Submission))
    (h : ℕ → String → Int → Except PyExn (List Candle))
    (i : ℚ → ℚ) (v : String → ℚ) (sym l : String) :
    predict_trend s h i v sym = .ok l ↔
      ∃ ps, get_reddit_posts (s 0) sym = .ok ps ∧ ps ≠ [] ∧
        (∃ d, h 0 sym 30 = .ok d) ∧ l = classify (aggregate i v ps) := by
  unfold predict_trend get_stock_data
  cases hg : get_reddit_posts (s 0) sym with
  | error e => simp [hg]
  | ok ps =>
    dsimp only
    by_cases hps : ps = []
    · subst hps
      simp
    · rw [if_neg hps]
      cases hh : h 0 sym 30 with
      | error e => simp [hps, hh]
      | ok d =>
        dsimp only
        constructor
        · intro hcl
          exact ⟨ps, rfl, hps, ⟨d, rfl⟩, (Except.ok.inj hcl).symm⟩
        · rintro ⟨w, hw, -, -, hl⟩
          cases Except.ok.inj hw
          exact congrArg Except.ok hl.symm

/-- C2 counterexample: with an external search that succeeds with zero
posts (and a perfectly healthy price API), `predict_trend` does not return
a defined fallback outcome — it raises `KeyError('text')`, because the
DataFrame built from an empty list has no `text` column. -/
theorem predict_trend_empty_posts_cex :
    predict_trend (fun _ _ _ => .ok []) (fun _ _ _ => .ok [])
      id (fun _ => 0) "AAPL" = .error (.keyError "text") := rfl

/-- C2 amended: whenever the post fetch returns zero posts,
`predict_trend` raises `KeyError('text')` (which propagates to the report
boundary); the empty case is distinguishable — it is never coerced to a
0.0 mean — but there is no documented fallback value: the call aborts. -/
theorem predict_trend_empty_posts_raises
    (s : ℕ → String → Int → Except PyExn (List Submission))
    (h : ℕ → String → Int → Except PyExn (List Candle))
    (i : ℚ → ℚ) (v : String → ℚ) (sym : String)
    (hs : s 0 (sym ++ " stock") 100 = .ok []) :
    predict_trend s h i v sym = .error (.keyError "text") := by
  simp [predict_trend, get_reddit_posts, hs]

/-- Witness for the amended C2: a zero-post search together with a failing
price API still yields `KeyError('text')` (the empty frame is hit first). -/
theorem predict_trend_empty_posts_raises_witness :
    predict_trend (fun _ _ _ => .ok [])
      (fun _ _ _ => .error (.upstreamUnavailable "yfinance down"))
      id (fun _ => 0) "TSLA" = .error (.keyError "text") :=
  predict_trend_empty_posts_raises _ _ _ _ _ rfl

/-- C3 counterexample: with an empty symbol and limit 0 (both conditions
the claim says must fail with `InvalidArgument`), `get_reddit_posts`
succeeds: it performs no argument validation. -/
theorem get_reddit_posts_no_validation_cex :
    get_reddit_posts (fun _ _ => Except.ok []) "" 0 = Except.ok [] := rfl

/-- C3 amended: `get_reddit_posts` validates nothing; for every symbol
(including the empty string) and every limit (including non-positive
ones) it forwards the query `"<symbol> stock"` and the limit to the
external search, and it fails exactly when the external search fails,
with the search's own error — it never raises `InvalidArgument` itself. -/
theorem get_reddit_posts_error_iff
    (search : String → Int → Except PyExn (List Submission))
    (sym : String) (lim : Int) (e : PyExn) :
    get_reddit_posts search sym lim = .error e ↔
      search (sym ++ " stock") lim = .error e := by
  unfold get_reddit_posts
  cases hs : search (sym ++ " stock") lim with
  | error e' => simp
  | ok subs => simp

/-- Witness for the amended C3: an empty symbol and a negative limit are
forwarded; the upstream error comes back unchanged. -/
theorem get_reddit_posts_error_iff_witness :
    get_reddit_posts (fun _ _ => .error (.upstreamUnavailable "reddit down"))
      "" (-3) = Except.error (.upstreamUnavailable "reddit down") :=
  (get_reddit_posts_error_iff _ "" (-3) _).mpr rfl

/-- C9: `predict_trend` returns no partial result and does not retry:
a search failure propagates unchanged (the history fetch is never
consulted); a history failure aborts the call even though the sentiment
half already succeeded; and the result depends only on the first call to
each collaborator. -/
theorem predict_trend_no_partial_no_retry :
    (∀ s h i v sym e, s 0 (sym ++ " stock") 100 = .error e →
      predict_trend s h i v sym = .error e) ∧
    (∀ s h i v sym ps e, get_reddit_posts (s 0) sym = .ok ps → ps ≠ [] →
      h 0 sym 30 = .error e → predict_trend s h i v sym = .error e) ∧
    (∀ s s' h h' i v sym, s 0 = s' 0 → h 0 = h' 0 →
      predict_trend s h i v sym = predict_trend s' h' i v sym) := by
  refine ⟨?_, ?_, ?_⟩
  · intro s h i v sym e hs
    simp [predict_trend, get_reddit_posts, hs]
  · intro s h i v sym ps e hg hps hh
    simp [predict_trend, get_stock_data, hg, hps, hh]
  · intro s s' h h' i v sym hs hh
    simp [predict_trend, get_reddit_posts, get_stock_data, hs, hh]

/-- Witness for C9: a failing search propagates its exact error; a failing
history fetch aborts a run whose sentiment half succeeded. -/
theorem predict_trend_no_partial_no_retry_witness :
    predict_trend (fun _ _ _ => .error (.upstreamUnavailable "reddit down"))
        (fun _ _ _ => .ok []) id (fun _ => 0) "AAPL"
      = .error (.upstreamUnavailable "reddit down") ∧
    predict_trend (fun _ _ _ => .ok [⟨"t", "b", 0, 0⟩])
        (fun _ _ _ => .error (.upstreamUnavailable "yfinance down"))
        id (fun _ => 0) "AAPL"
      = .error (.upstreamUnavailable "yfinance down") := by
  constructor
  · exact predict_trend_no_partial_no_retry.1 _ _ _ _ _ _ rfl
  · exact predict_trend_no_partial_no_retry.2.1 _ _ _ _ _
      [⟨"t", "b", 0, 0⟩] _ rfl (by decide) rfl

/-- Every value of `classify` is one of the three fixed label strings. -/
lemma classify_mem_labels (x : PyFloat) :
    classify x = bullishLabel ∨ classify x = bearishLabel ∨
      classify x = neutralLabel := by
  unfold classify
  split_ifs <;> simp

/-- C10: whenever `predict_trend` returns without raising, the result is
one of the three fixed strings, and a NaN mean (satisfying neither strict
comparison) falls through to the Neutral string. -/
theorem predict_trend_result_strings :
    (∀ s h i v sym l, predict_trend s h i v sym = .ok l →
      l = bullishLabel ∨ l = bearishLabel ∨ l = neutralLabel) ∧
    classify .nan = neutralLabel := by
  constructor
  · intro s h i v sym l hp
    obtain ⟨ps, _, _, _, hl⟩ := (predict_trend_ok_iff s h i v sym l).mp hp
    rw [hl]
    exact classify_mem_labels _
  · rfl

/-- C7: the label is a pure function of the mean sentiment alone: any two
runs (with arbitrary different oracles, lexicons and symbols) whose
aggregates are equal return the same label whenever both succeed; and the
fetched price history is never consulted — replacing one successful
history response by any other leaves the result unchanged. -/
theorem classification_depends_only_on_mean :
    (∀ s h i v sym s' h' i' v' sym' ps ps' l l',
      get_reddit_posts (s 0) sym = .ok ps →
      get_reddit_posts (s' 0) sym' = .ok ps' →
      aggregate i v ps = aggregate i' v' ps' →
      predict_trend s h i v sym = .ok l →
      predict_trend s' h' i' v' sym' = .ok l' → l = l') ∧
    (∀ s h h' i v sym d d', h 0 sym 30 = .ok d → h' 0 sym 30 = .ok d' →
      predict_trend s h i v sym = predict_trend s h' i v sym) := by
  constructor
  · intro s h i v sym s' h' i' v' sym' ps ps' l l' hg hg' hagg hp hp'
    obtain ⟨w, hw, -, -, hl⟩ := (predict_trend_ok_iff s h i v sym l).mp hp
    obtain ⟨w', hw', -, -, hl'⟩ := (predict_trend_ok_iff s' h' i' v' sym' l').mp hp'
    cases Except.ok.inj (hg.symm.trans hw)
    cases Except.ok.inj (hg'.symm.trans hw')
    rw [hl, hl', hagg]
  · intro s h h' i v sym d d' hh hh'
    cases hg : get_reddit_posts (s 0) sym with
    | error e => simp [predict_trend, hg]
    | ok ps =>
      by_cases hps : ps = []
      · simp [predict_trend, hg, hps]
      · simp [predict_trend, get_stock_data, hg, hps, hh, hh']

/-- C8: every exception raised inside the guarded pipeline of `main` (the
prediction, including both collaborator calls, and the sample re-fetch) is
caught at the report boundary, rendered as a plain `Error:` text line, and
the process exit code is 0 in every case, including upstream failure. -/
theorem main_run_catches_all_and_exits_zero :
    (∀ s h i v input, (main_run s h i v input).exitCode = 0) ∧
    (∀ s h i v input e, predict_trend s h i v input.toUpper = .error e →
      (main_run s h i v input).output = ["Error: " ++ errMsg e]) ∧
    (∀ s h i v input p e, predict_trend s h i v input.toUpper = .ok p →
      get_reddit_posts (s 1) input.toUpper 5 = .error e →
      (main_run s h i v input).output =
        predictionLines input.toUpper p ++ ["Error: " ++ errMsg e]) := by
  refine ⟨?_, ?_, ?_⟩
  · intro s h i v input
    dsimp only [main_run]
    cases predict_trend s h i v input.toUpper with
    | error e => rfl
    | ok p =>
      cases get_reddit_posts (s 1) input.toUpper 5 with
      | error e => rfl
      | ok ps => rfl
  · intro s h i v input e hp
    simp only [main_run, hp]
  · intro s h i v input p e hp hg
    simp only [main_run, hp, hg]

/-- Witness for C8: with the reddit API down, the report prints the error
text and exits with code 0. -/
theorem main_run_catches_witness :
    (main_run (fun _ _ _ => .error (.upstreamUnavailable "reddit down"))
        (fun _ _ _ => .ok []) id (fun _ => 0) "aapl").exitCode = 0 ∧
    (main_run (fun _ _ _ => .error (.upstreamUnavailable "reddit down"))
        (fun _ _ _ => .ok []) id (fun _ => 0) "aapl").output
      = ["Error: reddit down"] := by
  constructor
  · exact main_run_catches_all_and_exits_zero.1 _ _ _ _ _
  · have h2 := main_run_catches_all_and_exits_zero.2.1
      (fun _ _ _ => .error (.upstreamUnavailable "reddit down"))
      (fun _ _ _ => .ok []) id (fun _ => 0) "aapl"
      (.upstreamUnavailable "reddit down") rfl
    rw [h2]
    decide

/-- Witness for C7: two runs with different oracles, different lexicons
and different symbols but equal (zero) mean sentiment both return the
Neutral label. -/
theorem classification_depends_only_on_mean_witness :
    predict_trend (fun _ _ _ => .ok [⟨"t", "", 0, 0⟩]) (fun _ _ _ => .ok [])
        id (fun _ => 0) "A" = .ok neutralLabel ∧
    predict_trend (fun _ _ _ => .ok [⟨"u", "", 1, 1⟩, ⟨"w", "", 2, 2⟩])
        (fun _ _ _ => .ok []) id (fun _ => 1) "B" = .ok neutralLabel ∧
    neutralLabel = neutralLabel := by
  have hE : ∀ (i : ℚ → ℚ) (v : String → ℚ), analyze_sentiment i v "" = 0 := by
    intro i v
    simp [analyze_sentiment, vaderTokens, wordsAux, vaderCompound]
  have hagg1 : aggregate id (fun _ => 0) [⟨"t", "", 0, 0⟩] = .val 0 := by
    simp [aggregate, seriesMean, hE]
  have hagg2 : aggregate id (fun _ => 1) [⟨"u", "", 1, 1⟩, ⟨"w", "", 2, 2⟩]
      = .val 0 := by
    simp [aggregate, seriesMean, hE]
  have hcl : classify (.val 0) = neutralLabel :=
    classify_val_neutral (by norm_num) (by norm_num)
  have hp1 : predict_trend (fun _ _ _ => .ok [⟨"t", "", 0, 0⟩])
      (fun _ _ _ => .ok []) id (fun _ => 0) "A" = .ok neutralLabel := by
    simp [predict_trend, get_reddit_posts, get_stock_data, hagg1, hcl]
  have hp2 : predict_trend (fun _ _ _ => .ok [⟨"u", "", 1, 1⟩, ⟨"w", "", 2, 2⟩])
      (fun _ _ _ => .ok []) id (fun _ => 1) "B" = .ok neutralLabel := by
    simp [predict_trend, get_reddit_posts, get_stock_data, hagg2, hcl]
  have hg1 : get_reddit_posts
      ((fun _ _ _ => Except.ok [⟨"t", "", 0, 0⟩] :
        ℕ → String → Int → Except PyExn (List Submission)) 0) "A"
      = .ok [(⟨"t", "", 0, 0⟩ : Post)] := rfl
  have hg2 : get_reddit_posts
      ((fun _ _ _ => Except.ok [⟨"u", "", 1, 1⟩, ⟨"w", "", 2, 2⟩] :
        ℕ → String → Int → Except PyExn (List Submission)) 0) "B"
      = .ok [(⟨"u", "", 1, 1⟩ : Post), ⟨"w", "", 2, 2⟩] := rfl
  refine ⟨hp1, hp2, ?_⟩
  exact classification_depends_only_on_mean.1 _ _ _ _ _ _ _ _ _ _ _ _ _ _
    hg1 hg2 (hagg1.trans hagg2.symm) hp1 hp2

/-- Witness for C10: a concrete run whose mean is -1 returns the Bearish
string, which is one of the three fixed label strings. -/
theorem predict_trend_result_strings_witness :
    bearishLabel = bullishLabel ∨ bearishLabel = bearishLabel ∨
      bearishLabel = neutralLabel := by
  have htok : vaderTokens "bad" = ["bad"] := by decide
  have han : analyze_sentiment id (fun _ => -4) "bad" = -1 := by
    simp only [analyze_sentiment, htok, List.map_cons, List.map_nil]
    norm_num [vaderCompound, vaderNormalize]
  have hagg : aggregate id (fun _ => -4) [⟨"t", "bad", 0, 0⟩] = .val (-1) := by
    simp [aggregate, seriesMean, han]
  have hcl : classify (.val (-1)) = bearishLabel :=
    classify_val_bearish (by norm_num) (by norm_num)
  have hp : predict_trend (fun _ _ _ => .ok [⟨"t", "bad", 0, 0⟩])
      (fun _ _ _ => .ok []) id (fun _ => -4) "A" = .ok bearishLabel := by
    simp [predict_trend, get_reddit_posts, get_stock_data, hagg, hcl]
  exact predict_trend_result_strings.1 _ _ _ _ _ _ hp

/-- C4 counterexample: in the sample report the printed sentiment is
computed from the post's body (`post['text']`), not from the title: for a
post titled "good" with body "bad" (under a lexicon where the two score
differently), the printed line carries the body's score -1 rendered as
"-1.00", while the title's score 1 (which would render as "1.00") appears
nowhere — so the title is not scored in the sample report either. -/
theorem sample_report_scores_body_cex :
    sampleLines id (fun w => if w = "good" then 4 else -4)
        [⟨"good", "bad", 1, 0⟩] = ["", "Title: good", "Sentiment: -1.00"] ∧
    fmt2 (analyze_sentiment id (fun w => if w = "good" then 4 else -4) "good")
      = "1.00" ∧
    "Sentiment: 1.00" ∉ sampleLines id (fun w => if w = "good" then 4 else -4)
        [⟨"good", "bad", 1, 0⟩] := by
  have htokb : vaderTokens "bad" = ["bad"] := by decide
  have htokg : vaderTokens "good" = ["good"] := by decide
  have hvb : (fun w : String => if w = "good" then (4 : ℚ) else -4) "bad"
      = -4 := by simp
  have hvg : (fun w : String => if w = "good" then (4 : ℚ) else -4) "good"
      = 4 := by simp
  have hb : analyze_sentiment id (fun w => if w = "good" then 4 else -4) "bad"
      = -1 := by
    simp only [analyze_sentiment, htokb, List.map_cons, List.map_nil, hvb]
    norm_num [vaderCompound, vaderNormalize]
  have hg : analyze_sentiment id (fun w => if w = "good" then 4 else -4) "good"
      = 1 := by
    simp only [analyze_sentiment, htokg, List.map_cons, List.map_nil, hvg]
    norm_num [vaderCompound, vaderNormalize]
  have hr1 : round ((-1 : ℚ) * 100) = -100 := by norm_num [round_eq]
  have hr2 : round ((1 : ℚ) * 100) = 100 := by norm_num [round_eq]
  have hf1 : fmt2 (-1) = "-1.00" := by
    simp only [fmt2, hr1]
    decide
  have hf2 : fmt2 1 = "1.00" := by
    simp only [fmt2, hr2]
    decide
  have hlist : sampleLines id (fun w => if w = "good" then 4 else -4)
      [⟨"good", "bad", 1, 0⟩] = ["", "Title: good", "Sentiment: -1.00"] := by
    simp only [sampleLines, List.flatMap_cons, List.flatMap_nil,
      List.append_nil, hb, hf1]
    decide
  refine ⟨hlist, by rw [hg, hf2], ?_⟩
  rw [hlist]
  decide

/-- C4 amended: only the body text is scored anywhere.  The aggregate is
invariant under any change of titles (and of the other non-body fields),
and in the sample report the lines are pointwise identical for body-equal
posts except for the displayed `Title:` lines — in particular every
`Sentiment:` line is computed from the body alone; titles are displayed
but never scored. -/
theorem body_only_scoring (i : ℚ → ℚ) (v : String → ℚ)
    (posts posts' : List Post)
    (h : List.Forall₂ (fun a b => a.text = b.text) posts posts') :
    aggregate i v posts = aggregate i v posts' ∧
    List.Forall₂ (fun x y => x = y ∨
        ∃ t t', x = "Title: " ++ t ∧ y = "Title: " ++ t')
      (sampleLines i v posts) (sampleLines i v posts') := by
  constructor
  · have hm : posts.map (fun p => analyze_sentiment i v p.text)
        = posts'.map (fun p => analyze_sentiment i v p.text) := by
      induction h with
      | nil => rfl
      | cons hab hrest ih => simp [List.map_cons, hab, ih]
    unfold aggregate
    rw [hm]
  · induction h with
    | nil => simp [sampleLines]
    | @cons a b l1 l2 hab hrest ih =>
      simp only [sampleLines, List.flatMap_cons] at ih ⊢
      refine List.rel_append ?_ ih
      exact .cons (Or.inl rfl)
        (.cons (Or.inr ⟨a.title, b.title, rfl, rfl⟩)
          (.cons (Or.inl (by rw [hab])) .nil))

/-- Witness for the amended C4: two single-post lists sharing the body but
differing in title and metadata produce the same aggregate, and their
sample reports differ at most in the Title line. -/
theorem body_only_scoring_witness :
    aggregate id (fun _ => 0) [⟨"A", "hello", 0, 0⟩]
      = aggregate id (fun _ => 0) [⟨"B", "hello", 9, 9⟩] ∧
    List.Forall₂ (fun x y => x = y ∨
        ∃ t t', x = "Title: " ++ t ∧ y = "Title: " ++ t')
      (sampleLines id (fun _ => 0) [⟨"A", "hello", 0, 0⟩])
      (sampleLines id (fun _ => 0) [⟨"B", "hello", 9, 9⟩]) :=
  body_only_scoring id (fun _ => 0) _ _ (.cons rfl .nil)

end StockSentiment
